import Mathlib

/-!
Verification of the signature-generation core of `mitre-sig-converter`.

The Python sources embedded here:
  - `mitre_sig_converter/models/technique.py`   (the `Technique` dataclass)
  - `mitre_sig_converter/converter/base_converter.py`
  - `mitre_sig_converter/converter/yara_converter.py`
  - `mitre_sig_converter/converter/sigma_converter.py`
  - `mitre_sig_converter/converter/kql_converter.py`

Strings are modelled as `List Char` (all data handled by the program is
ASCII).  Python exceptions are modelled by `Except PyError`; an attribute
access on an object that does not define that attribute is an
`AttributeError`, exactly as in CPython.  The repository's Jinja2 templates
are not part of the sources, so the final text-rendering step is modelled
from the spec (see the `Modelled from the spec:` definitions).
-/

abbrev Str := List Char

/-- ASCII lowercasing of one character, as Python `str.lower` acts on the
ASCII data appearing in this program. -/
def lowerChar (c : Char) : Char :=
  if c = 'A' then 'a' else if c = 'B' then 'b' else if c = 'C' then 'c'
  else if c = 'D' then 'd' else if c = 'E' then 'e' else if c = 'F' then 'f'
  else if c = 'G' then 'g' else if c = 'H' then 'h' else if c = 'I' then 'i'
  else if c = 'J' then 'j' else if c = 'K' then 'k' else if c = 'L' then 'l'
  else if c = 'M' then 'm' else if c = 'N' then 'n' else if c = 'O' then 'o'
  else if c = 'P' then 'p' else if c = 'Q' then 'q' else if c = 'R' then 'r'
  else if c = 'S' then 's' else if c = 'T' then 't' else if c = 'U' then 'u'
  else if c = 'V' then 'v' else if c = 'W' then 'w' else if c = 'X' then 'x'
  else if c = 'Y' then 'y' else if c = 'Z' then 'z' else c

/-- Python `s.lower()`. -/
def pyLower (s : Str) : Str := s.map lowerChar

/-- Python `needle in hay` on strings: substring containment. -/
def strIn (needle : Str) : Str → Bool
  | [] => needle.isEmpty
  | c :: rest => needle.isPrefixOf (c :: rest) || strIn needle rest

/-- A regex `\w` character: `[A-Za-z0-9_]`. -/
def isWordChar (c : Char) : Bool := c.isAlphanum || c = '_'

/-- Helper for `tokens`: `acc` holds the reversed current run of word
characters. -/
def tokensAux : Str → Str → List Str
  | [], acc => if acc.isEmpty then [] else [acc.reverse]
  | c :: rest, acc =>
    if isWordChar c then tokensAux rest (c :: acc)
    else if acc.isEmpty then tokensAux rest acc
    else acc.reverse :: tokensAux rest []

/-- Python `re.findall(r'\b\w+\b', s)`: the maximal runs of word
characters of `s`, in order. -/
def tokens (s : Str) : List Str := tokensAux s []

/-- Python `s.split(sep)` for a one-character separator (parts may be
empty, all parts returned). -/
def splitOnCharAux (sep : Char) : Str → Str → List Str
  | [], acc => [acc.reverse]
  | c :: rest, acc =>
    if c = sep then acc.reverse :: splitOnCharAux sep rest []
    else splitOnCharAux sep rest (c :: acc)

def splitOnChar (sep : Char) (s : Str) : List Str := splitOnCharAux sep s []

/-- Python `s.strip(chars)`: drop the characters of `chars` from both ends. -/
def pyStripChars (chars : Str) (s : Str) : Str :=
  ((s.dropWhile (chars.contains ·)).reverse.dropWhile (chars.contains ·)).reverse

/-- Python `s.strip()` (whitespace strip; the whitespace characters of
ASCII). -/
def pyStrip (s : Str) : Str := pyStripChars [' ', '\t', '\n', '\x0d', '\x0b', '\x0c'] s

/-- Python `list(dict.fromkeys(l))`: deduplication keeping the first
occurrence of every element, preserving order. -/
def pyDedupAux (seen : List Str) : List Str → List Str
  | [] => []
  | x :: xs =>
    if seen.contains x then pyDedupAux seen xs
    else x :: pyDedupAux (x :: seen) xs

def pyDedup (l : List Str) : List Str := pyDedupAux [] l

/-- Decimal rendering of a `Nat` as a `Str` (Python `str(n)` /
f-string interpolation of an `int`). -/
def natToStr (n : Nat) : Str := (Nat.repr n).data

/-! ## The `Technique` data model (`models/technique.py`)

The dataclass defines exactly the nine fields below.  In particular it
defines no `matrix` field, no `parent_id` or `parent_technique_id`
attribute, no `common_processes`/`common_files`/`common_registry_keys`
attributes and no `get_common_commands`/`get_common_services` methods,
although other code in the repository refers to all of these. -/

structure Technique where
  id : Str
  name : Str
  description : Str
  tactics : List Str
  platforms : List Str
  data_sources : List Str
  detection : Str
  related_techniques : List Str
  is_subtechnique : Bool

namespace Technique

/-- `Technique.get_detection_patterns`. -/
def get_detection_patterns (t : Technique) : List Str :=
  let fromDetection : List Str :=
    if t.detection.isEmpty then []
    else
      (splitOnChar '\n' t.detection).filterMap fun part =>
        if (pyStrip part).isEmpty then none
        else
          let cleanPart := pyStrip (pyStripChars ['-', ' ', '*'] part)
          if cleanPart.isEmpty then none else some cleanPart
  let detectionKeywords : List Str :=
    ["monitor".data, "detect".data, "look for".data, "observe".data, "identify".data]
  let fromDescription : List Str :=
    (splitOnChar '\n' t.description).filterMap fun line =>
      if detectionKeywords.any (fun kw => strIn kw (pyLower line))
      then some (pyStrip line) else none
  let fromDataSources : List Str :=
    t.data_sources.map (fun source => "Data Source: ".data ++ source)
  fromDetection ++ fromDescription ++ fromDataSources

/-- `Technique.is_applicable_to_platform`. -/
def is_applicable_to_platform (t : Technique) (platform : Str) : Bool :=
  if t.platforms.isEmpty then true
  else
    let normalizedPlatform := pyLower platform
    let normalizedPlatforms := t.platforms.map pyLower
    if normalizedPlatforms.contains normalizedPlatform then true
    else normalizedPlatforms.any (fun p => strIn p normalizedPlatform)

/-- Python `self.id.split('.')[0]`: the base technique id. -/
def baseId (t : Technique) : Str := (splitOnChar '.' t.id).headD []

/-- The `windows_processes` table of `get_common_processes`. -/
def windowsProcesses (baseId : Str) : List Str :=
  if baseId = "T1055".data then
    ["explorer.exe".data, "lsass.exe".data, "services.exe".data, "svchost.exe".data]
  else if baseId = "T1059".data then
    ["cmd.exe".data, "powershell.exe".data, "wscript.exe".data, "cscript.exe".data]
  else if baseId = "T1053".data then ["schtasks.exe".data, "at.exe".data]
  else if baseId = "T1218".data then
    ["regsvr32.exe".data, "rundll32.exe".data, "msiexec.exe".data]
  else []

/-- The `unix_processes` table of `get_common_processes`. -/
def unixProcesses (baseId : Str) : List Str :=
  if baseId = "T1059".data then
    ["bash".data, "sh".data, "python".data, "perl".data, "ruby".data]
  else if baseId = "T1053".data then ["cron".data, "at".data]
  else if baseId = "T1543".data then
    ["systemctl".data, "launchctl".data, "service".data]
  else []

/-- `Technique.get_common_processes`. -/
def get_common_processes (t : Technique) : List Str :=
  (if t.platforms.any (fun p => ["windows".data, "win".data].contains (pyLower p))
   then windowsProcesses t.baseId else []) ++
  (if t.platforms.any (fun p => ["linux".data, "macos".data, "mac os".data].contains (pyLower p))
   then unixProcesses t.baseId else [])

/-- `Technique.get_common_files`. -/
def get_common_files (t : Technique) : List Str :=
  (if t.platforms.any (fun p => pyLower p = "windows".data) then
    if "T1547".data.isPrefixOf t.id then
      ["C:\\Windows\\System32\\Tasks\\*".data,
       "C:\\ProgramData\\Microsoft\\Windows\\Start Menu\\Programs\\Startup\\*".data,
       "HKLM\\Software\\Microsoft\\Windows\\CurrentVersion\\Run\\*".data,
       "HKCU\\Software\\Microsoft\\Windows\\CurrentVersion\\Run\\*".data]
    else if "T1059".data.isPrefixOf t.id then
      ["*.ps1".data, "*.bat".data, "*.cmd".data, "*.vbs".data, "*.js".data]
    else []
   else []) ++
  (if t.platforms.any (fun p => ["linux".data, "macos".data].contains (pyLower p)) then
    if "T1547".data.isPrefixOf t.id then
      ["/etc/init.d/*".data, "/etc/crontab".data, "/etc/cron.*/*".data,
       "/Library/LaunchAgents/*".data, "/Library/LaunchDaemons/*".data,
       "~/.bash_profile".data, "~/.bashrc".data]
    else []
   else [])

/-- `Technique.get_common_registry_keys`. -/
def get_common_registry_keys (t : Technique) : List Str :=
  if !(t.platforms.any (fun p => pyLower p = "windows".data)) then []
  else if "T1547".data.isPrefixOf t.id then
    ["HKLM\\SOFTWARE\\Microsoft\\Windows\\CurrentVersion\\Run".data,
     "HKCU\\SOFTWARE\\Microsoft\\Windows\\CurrentVersion\\Run".data,
     "HKLM\\SOFTWARE\\Microsoft\\Windows\\CurrentVersion\\RunOnce".data,
     "HKCU\\SOFTWARE\\Microsoft\\Windows\\CurrentVersion\\RunOnce".data]
  else if "T1112".data.isPrefixOf t.id then
    ["HKLM\\SYSTEM\\CurrentControlSet\\Services".data,
     "HKLM\\SOFTWARE\\Microsoft\\Windows NT\\CurrentVersion\\Image File Execution Options".data,
     "HKLM\\SOFTWARE\\Microsoft\\Windows NT\\CurrentVersion\\Winlogon\\Notify".data,
     "HKLM\\SOFTWARE\\Microsoft\\Windows NT\\CurrentVersion\\Winlogon\\Shell".data]
  else []

/-- `Technique.get_common_network_indicators`. -/
def get_common_network_indicators (t : Technique) : List Str :=
  if "T1071".data.isPrefixOf t.id then
    ["Unusual outbound connections to high ports".data,
     "DNS queries with high entropy or encoded data".data,
     "HTTP/HTTPS requests with suspicious user agents".data,
     "Beaconing patterns in network traffic".data]
  else if "T1095".data.isPrefixOf t.id then
    ["Direct use of TCP/UDP sockets".data,
     "ICMP traffic with data".data,
     "Raw IP packets with unusual formats".data,
     "Non-standard protocol usage".data]
  else if "T1571".data.isPrefixOf t.id then
    ["Common protocols on non-standard ports".data,
     "Web traffic on ports other than 80/443".data,
     "Database traffic on non-standard ports".data]
  else if "T1572".data.isPrefixOf t.id then
    ["DNS tunneling patterns".data,
     "HTTP/HTTPS tunneling over unexpected ports".data,
     "Unusual data patterns in standard protocols".data]
  else []

/-- `Technique.get_environment_agnostic_patterns`. -/
def get_environment_agnostic_patterns (t : Technique) : List Str :=
  if "T1055".data.isPrefixOf t.id then
    ["Unusual memory allocation patterns".data,
     "Process creating threads in another process".data,
     "Unexpected process handle operations".data]
  else if "T1059".data.isPrefixOf t.id then
    ["Execution of script interpreters with suspicious arguments".data,
     "Encoded or obfuscated command line arguments".data,
     "Script execution from unusual locations".data]
  else if "T1569".data.isPrefixOf t.id then
    ["Service creation with unusual executable paths".data,
     "Service modifications with suspicious command lines".data,
     "Unexpected service starts or stops".data]
  else if "T1078".data.isPrefixOf t.id then
    ["Authentication from unusual locations".data,
     "Login attempts at unusual times".data,
     "Multiple failed login attempts followed by successful login".data,
     "Privileged account usage for routine tasks".data]
  else []

end Technique

/-! ## Python exceptions and the base converter (`base_converter.py`) -/

/-- The Python exceptions raised by the embedded code.  `attributeError a`
models `AttributeError` raised by reading the missing attribute/method `a`. -/
inductive PyError where
  | valueError (msg : String)
  | attributeError (attr : String)
deriving DecidableEq, Repr

/-- The context dict built by `BaseConverter.create_signature_context`
(lines 122-136). -/
structure SignatureContext where
  technique : Technique
  id : Str
  name : Str
  description : Str
  tactics : List Str
  platforms : List Str
  detection_patterns : List Str
  environment_agnostic_patterns : List Str
  common_processes : List Str
  common_files : List Str
  common_registry_keys : List Str
  network_indicators : List Str

namespace BaseConverter

/-- `BaseConverter.create_signature_context` (lines 106-137): raises
`ValueError("Technique cannot be None")` when `technique is None`,
otherwise builds the context dict from the technique's getters. -/
def create_signature_context : Option Technique → Except PyError SignatureContext
  | none => .error (.valueError "Technique cannot be None")
  | some t => .ok
      { technique := t
        id := t.id
        name := t.name
        description := t.description
        tactics := t.tactics
        platforms := t.platforms
        detection_patterns := t.get_detection_patterns
        environment_agnostic_patterns := t.get_environment_agnostic_patterns
        common_processes := t.get_common_processes
        common_files := t.get_common_files
        common_registry_keys := t.get_common_registry_keys
        network_indicators := t.get_common_network_indicators }

end BaseConverter

/-! ## The YARA converter (`yara_converter.py`) -/

/-- One entry of the `strings` list built by
`YaraConverter._generate_strings`: a dict `{'id', 'type', 'value'}`. -/
structure YaraString where
  id : Str
  type : Str
  value : Str
deriving DecidableEq, Repr

namespace YaraConverter

/-- `YaraConverter._generate_strings` (lines 49-134).  The index of every
entry id is the position of its indicator in its source list
(`enumerate`), even when earlier indicators produced no entry. -/
def generate_strings (t : Technique) : List YaraString :=
  let fileStrings := t.get_common_files.enum.map fun (idx, filePath) =>
    ⟨"file_".data ++ natToStr idx, "text".data, filePath⟩
  let processStrings := t.get_common_processes.enum.map fun (idx, process) =>
    ⟨"process_".data ++ natToStr idx, "text".data, process⟩
  let registryStrings := t.get_common_registry_keys.enum.map fun (idx, registry) =>
    ⟨"registry_".data ++ natToStr idx, "text".data, registry⟩
  let networkStrings := t.get_common_network_indicators.enum.filterMap fun (idx, indicator) =>
    if strIn "DNS".data indicator then
      some ⟨"dns_".data ++ natToStr idx, "regex".data, "(dns|domain|nslookup)".data⟩
    else if strIn "HTTP".data indicator then
      some ⟨"http_".data ++ natToStr idx, "regex".data, "(http|https|web)".data⟩
    else if strIn "port".data (pyLower indicator) then
      some ⟨"port_".data ++ natToStr idx, "regex".data, "(port|connect|socket)".data⟩
    else none
  let agnosticStrings := t.get_environment_agnostic_patterns.enum.filterMap fun (idx, pattern) =>
    if strIn "memory allocation".data (pyLower pattern) then
      some ⟨"memory_".data ++ natToStr idx, "regex".data, "(VirtualAlloc|mmap|malloc)".data⟩
    else if strIn "script".data (pyLower pattern) then
      some ⟨"script_".data ++ natToStr idx, "regex".data,
            "(powershell|cmd\\.exe|bash|python|perl|sh)".data⟩
    else if strIn "service".data (pyLower pattern) then
      some ⟨"service_".data ++ natToStr idx, "regex".data,
            "(service|daemon|systemctl|systemd)".data⟩
    else if strIn "account".data (pyLower pattern) || strIn "login".data (pyLower pattern) then
      some ⟨"account_".data ++ natToStr idx, "regex".data,
            "(login|account|user|credential)".data⟩
    else none
  fileStrings ++ processStrings ++ registryStrings ++ networkStrings ++ agnosticStrings

/-- The `if/elif` chain of `_generate_conditions` (lines 156-166) that
sorts each string id into one of the five buckets
(file/process/registry/network/other), numbered in source order. -/
def bucket (id : Str) : Nat :=
  if "file_".data.isPrefixOf id then 0
  else if "process_".data.isPrefixOf id then 1
  else if "registry_".data.isPrefixOf id then 2
  else if ["dns_".data, "http_".data, "port_".data].any (fun pre => pre.isPrefixOf id) then 3
  else 4

/-- One `if ..._strings:` block of `_generate_conditions` (lines 169-197):
no fragment for an empty bucket, a bare `$id` for a singleton, one
`any of (...)` fragment otherwise. -/
def conditionBlock (ids : List Str) : List Str :=
  match ids with
  | [] => []
  | [x] => ["$".data ++ x]
  | xs => ["any of (".data ++
           List.intercalate ", ".data (xs.map (fun s => "$".data ++ s)) ++ ")".data]

/-- `YaraConverter._generate_conditions` (lines 136-203). -/
def generate_conditions (t : Technique) : List Str :=
  let strings := generate_strings t
  let fileStrings := (strings.filter (fun s => bucket s.id == 0)).map (·.id)
  let processStrings := (strings.filter (fun s => bucket s.id == 1)).map (·.id)
  let registryStrings := (strings.filter (fun s => bucket s.id == 2)).map (·.id)
  let networkStrings := (strings.filter (fun s => bucket s.id == 3)).map (·.id)
  let otherStrings := (strings.filter (fun s => bucket s.id == 4)).map (·.id)
  let conditions :=
    conditionBlock fileStrings ++ conditionBlock processStrings ++
    conditionBlock registryStrings ++ conditionBlock networkStrings ++
    conditionBlock otherStrings
  if conditions.isEmpty then ["filesize < 5MB".data] else conditions

/-- `f"MITRE_ATT_CK_{technique.id.replace('.', '_')}"`. -/
def rule_name (t : Technique) : Str :=
  "MITRE_ATT_CK_".data ++ t.id.map (fun c => if c = '.' then '_' else c)

/-- Modelled from the spec: the Jinja2 template `yara_template.j2` is part
of the repository but not under `src/`.  Spec §4.5: the rendered format-A
text must contain the substrings `"rule"`, the technique id, the technique
name, `"strings:"` and `"condition:"`, and render every structured field
passed in (empty lists become empty sections, not errors). -/
def render (ctx : SignatureContext) (ruleName : Str) (strings : List YaraString)
    (conditions : List Str) : Str :=
  "rule ".data ++ ruleName ++ "\n// ".data ++ ctx.id ++ " ".data ++ ctx.name ++
  "\nstrings:\n".data ++
  (strings.map (fun s => "  $".data ++ s.id ++ " = ".data ++ s.value ++ "\n".data)).flatten ++
  "condition:\n  ".data ++ List.intercalate " and ".data conditions ++ "\n".data

/-- `YaraConverter.convert` (lines 26-47): builds the base context (which
raises `ValueError` on `None`), adds the YARA-specific context and renders
the template. -/
def convert (t? : Option Technique) : Except PyError Str :=
  (BaseConverter.create_signature_context t?).map fun ctx =>
    render ctx (rule_name ctx.technique) (generate_strings ctx.technique)
      (generate_conditions ctx.technique)

end YaraConverter

/-! ## The Sigma converter (`sigma_converter.py`) -/

/-- The detection dict built by `SigmaConverter._generate_detection`. -/
structure SigmaDetection where
  selection : List (Str × List Str)
  selection_alt : Option (List (Str × List Str))
  condition : Str
deriving DecidableEq

namespace SigmaConverter

/-- `SigmaConverter._generate_detection` (lines 54-132).  Its first test
`if technique.common_processes:` (line 70) reads attribute
`common_processes`; the `Technique` dataclass defines the method
`get_common_processes()` but no attribute of that name, so the read
raises `AttributeError` for every technique and the rest of the body
(lines 71-132) is unreachable. -/
def generate_detection (_t : Technique) : Except PyError SigmaDetection :=
  .error (.attributeError "common_processes")

/-- `SigmaConverter._determine_level` (lines 206-227). -/
def determine_level (t : Technique) : Str :=
  if "T1055".data.isPrefixOf t.id then "high".data
  else if "T1059".data.isPrefixOf t.id then "medium".data
  else if "T1078".data.isPrefixOf t.id then "medium".data
  else if "T1071".data.isPrefixOf t.id then "low".data
  else "medium".data

/-- Modelled from the spec: the Jinja2 template `sigma_template.j2` is part
of the repository but not under `src/`.  Spec §4.5: the rendered format-B
text must contain `"title:"`, the id, the name, `"detection:"` and
`"selection:"`. -/
def render (ctx : SignatureContext) (det : SigmaDetection) (level : Str) : Str :=
  "title: MITRE ATT&CK: ".data ++ ctx.name ++ " - ".data ++ ctx.id ++
  "\nlevel: ".data ++ level ++
  "\ndetection:\n  selection:\n".data ++
  (det.selection.map (fun kv => "    ".data ++ kv.1 ++ ": ".data ++
    List.intercalate ", ".data kv.2 ++ "\n".data)).flatten ++
  "  condition: ".data ++ det.condition ++ "\n".data

/-- `SigmaConverter.convert` (lines 26-52): builds the base context (which
raises `ValueError` on `None`); the `context.update({...})` dict literal
then evaluates `self._generate_detection(technique)` (line 42) before the
other Sigma-specific entries, so the `AttributeError` from
`_generate_detection` propagates out of every successful context build. -/
def convert (t? : Option Technique) : Except PyError Str :=
  (BaseConverter.create_signature_context t?).bind fun ctx =>
    (generate_detection ctx.technique).map fun det =>
      render ctx det (determine_level ctx.technique)

end SigmaConverter

/-! ## The KQL converter (`kql_converter.py`) -/

/-- One entry of the `query_parts` list of
`KqlConverter._generate_query_parts`: a dict `{'table', 'where'}`. -/
structure QueryPart where
  table : Str
  whereClause : Str
deriving DecidableEq, Repr

namespace KqlConverter

/-- The Windows branch of `_determine_tables` (lines 62-73). -/
def windowsTables (id : Str) : List Str :=
  if "T1055".data.isPrefixOf id then
    ["SecurityEvent".data, "WindowsEvent".data, "SecurityAlert".data]
  else if "T1059".data.isPrefixOf id then
    ["SecurityEvent".data, "WindowsEvent".data, "ProcessEvents".data]
  else if "T1547".data.isPrefixOf id then
    ["SecurityEvent".data, "WindowsEvent".data, "RegistryEvents".data]
  else if "T1078".data.isPrefixOf id then
    ["SecurityEvent".data, "SigninLogs".data, "AuditLogs".data]
  else if "T1071".data.isPrefixOf id then
    ["NetworkEvents".data, "DnsEvents".data, "CommonSecurityLog".data]
  else []

/-- The Linux branch of `_determine_tables` (lines 75-84). -/
def linuxTables (id : Str) : List Str :=
  if "T1059".data.isPrefixOf id then ["Syslog".data, "LinuxAuditLogs".data]
  else if "T1547".data.isPrefixOf id then ["Syslog".data, "LinuxAuditLogs".data]
  else if "T1078".data.isPrefixOf id then ["Syslog".data, "LinuxAuditLogs".data]
  else if "T1071".data.isPrefixOf id then ["NetworkEvents".data, "DnsEvents".data]
  else []

/-- The macOS branch of `_determine_tables` (lines 86-93). -/
def macosTables (id : Str) : List Str :=
  if "T1059".data.isPrefixOf id then ["MacOSAuditLogs".data, "Syslog".data]
  else if "T1547".data.isPrefixOf id then ["MacOSAuditLogs".data, "Syslog".data]
  else if "T1078".data.isPrefixOf id then ["MacOSAuditLogs".data, "Syslog".data]
  else []

/-- The platform-gated part of the `tables` list (lines 59-93), before the
environment-agnostic tables are appended. -/
def platformTables (t : Technique) : List Str :=
  (if t.platforms.any (fun p => pyLower p = "windows".data) then windowsTables t.id else []) ++
  (if t.platforms.any (fun p => pyLower p = "linux".data) then linuxTables t.id else []) ++
  (if t.platforms.any (fun p => pyLower p = "macos".data) then macosTables t.id else [])

/-- The two environment-agnostic tables appended at line 96. -/
def agnosticTables : List Str := ["SecurityAlert".data, "SecurityIncident".data]

/-- `KqlConverter._determine_tables` (lines 49-101): platform tables, the
two agnostic tables, then `list(dict.fromkeys(tables))`. -/
def determine_tables (t : Technique) : List Str :=
  pyDedup (platformTables t ++ agnosticTables)

/-- `KqlConverter._escape_kql_string` (lines 198-209). -/
def escape_kql_string (s : Str) : Str :=
  (s.map (fun c => if c = '"' then ['\\', '"'] else [c])).flatten

/-- The query parts accumulated by `_generate_query_parts` over lines
113-166 (processes, files, registry keys, network indicators), before
line 169 is reached. -/
def query_parts_before_commands (t : Technique) : List QueryPart :=
  let processParts :=
    if t.get_common_processes.isEmpty then []
    else
      [⟨"ProcessEvents".data,
        "(".data ++ List.intercalate " or ".data
          (t.get_common_processes.map
            (fun p => "Process contains \"".data ++ p ++ "\"".data)) ++ ")".data⟩]
  let fileParts :=
    if t.get_common_files.isEmpty then []
    else
      [⟨"FileEvents".data,
        "(".data ++ List.intercalate " or ".data
          (t.get_common_files.map
            (fun f => "TargetFilename contains \"".data ++ f ++ "\"".data)) ++ ")".data⟩]
  let registryParts :=
    if t.get_common_registry_keys.isEmpty then []
    else
      [⟨"RegistryEvents".data,
        "(".data ++ List.intercalate " or ".data
          (t.get_common_registry_keys.map
            (fun r => "RegistryKey contains \"".data ++ r ++ "\"".data)) ++ ")".data⟩]
  let networkParts :=
    if t.get_common_network_indicators.isEmpty then []
    else
      (if t.get_common_network_indicators.any (fun indicator => strIn "DNS".data indicator) then
        [⟨"DnsEvents".data, "isnotempty(QueryName)".data⟩]
       else []) ++
      (if t.get_common_network_indicators.any (fun indicator => strIn "HTTP".data indicator) then
        [⟨"NetworkEvents".data,
          "RemotePort in (80, 443, 8080) or NetworkProtocol contains \"HTTP\"".data⟩]
       else []) ++
      [⟨"NetworkEvents".data,
        "(".data ++ List.intercalate " or ".data
          (t.get_common_network_indicators.map
            (fun n => "NetworkProtocol contains \"".data ++ n ++
                      "\" or RequestURL contains \"".data ++ n ++ "\"".data)) ++ ")".data⟩]
  processParts ++ fileParts ++ registryParts ++ networkParts

/-- `KqlConverter._generate_query_parts` (lines 103-196).  After the
network section, line 169 evaluates `technique.get_common_commands()`;
the `Technique` dataclass defines no such method (nor
`get_common_services`, line 178), so the call raises `AttributeError` on
every technique and the parts accumulated so far are discarded. -/
def generate_query_parts (t : Technique) : Except PyError (List QueryPart) :=
  let _parts := query_parts_before_commands t
  .error (.attributeError "get_common_commands")

/-- `KqlConverter._extract_keywords_from_description` (lines 211-228). -/
def extract_keywords_from_description (description : Str) : List Str :=
  let commonWords : List Str :=
    ["the".data, "and".data, "a".data, "to".data, "of".data, "in".data,
     "for".data, "is".data, "on".data, "that".data, "by".data]
  let words := tokens (pyLower description)
  let keywords :=
    words.filter (fun word => !(commonWords.contains word) && decide (3 < word.length))
  (pyDedup keywords).take 10

/-- The context dict that `KqlConverter.create_signature_context` tries to
build (lines 240-248). -/
structure KqlContext where
  technique_id : Str
  technique_name : Str
  description : Str
  platforms : List Str
  data_sources : List Str
  is_subtechnique : Bool
  parent_technique : Option Str

/-- `KqlConverter.create_signature_context` (lines 230-250).  This
override of the base class's method performs no `None` check: on `None`
the first dict value `technique.id` raises
`AttributeError("'NoneType' object has no attribute 'id'")`.  On a real
technique the dict literal reaches
`technique.parent_technique_id` (line 247); the `Technique` dataclass
defines no such attribute, so the read raises `AttributeError` and no
context is ever returned. -/
def create_signature_context : Option Technique → Except PyError KqlContext
  | none => .error (.attributeError "id")
  | some _t => .error (.attributeError "parent_technique_id")

/-- Modelled from the spec: the Jinja2 template `kql_template.j2` is part
of the repository but not under `src/`.  Spec §4.5: the rendered format-C
text must contain the id, the name and a `where`-style clause marker. -/
def render (ctx : KqlContext) (tables : List Str) (parts : List QueryPart) : Str :=
  "// ".data ++ ctx.technique_id ++ " ".data ++ ctx.technique_name ++ "\n".data ++
  "let tables = ".data ++ List.intercalate ", ".data tables ++ ";\n".data ++
  (parts.map (fun part => part.table ++ " | where ".data ++ part.whereClause ++ "\n".data)).flatten

/-- `KqlConverter.convert` (lines 26-47): `create_signature_context` runs
first and always raises (see above), so the `AttributeError` propagates
before `_determine_tables` or `_generate_query_parts` are reached. -/
def convert (t? : Option Technique) : Except PyError Str :=
  match t?, create_signature_context t? with
  | _, .error e => .error e
  | some t, .ok ctx =>
    (generate_query_parts t).map fun parts => render ctx (determine_tables t) parts
  | none, .ok _ctx =>
    -- unreachable: `create_signature_context none` raised already
    .error (.attributeError "id")

end KqlConverter

/-- Modelled from the spec: the derived parent-technique property that the
`Technique` model is missing (it is referenced as `parent_technique_id` by
`kql_converter.py` lines 247/263-264 and `mitre_api.py` lines 182/189, but
`models/technique.py` never defines it).  Spec §3: "derived property
`parent_id`: present iff `is_subtechnique` and id contains a separator —
equals the portion before the separator." -/
def specParentId (t : Technique) : Option Str :=
  if t.is_subtechnique && t.id.contains '.' then
    some (t.id.takeWhile (fun c => c != '.'))
  else none

/-! ## Concrete techniques used by the theorems -/

/-- The spec §8 fallback example: empty `platforms`, empty `data_sources`,
`detection=""`. -/
def techT9999 : Technique :=
  { id := "T9999".data, name := "Obscure Technique".data,
    description := "Adversaries might abuse obscure obscure mechanisms frequently.".data,
    tactics := [], platforms := [], data_sources := [], detection := [],
    related_techniques := [], is_subtechnique := false }

/-- A Windows process-injection-family technique. -/
def techT1055win : Technique :=
  { id := "T1055".data, name := "Process Injection".data,
    description := "Process injection description.".data,
    tactics := ["defense-evasion".data], platforms := ["Windows".data],
    data_sources := [], detection := [], related_techniques := [],
    is_subtechnique := false }

/-- A Windows application-layer-protocol technique (its derived network
indicators include a phrase containing "DNS"). -/
def techT1071win : Technique :=
  { id := "T1071".data, name := "Application Layer Protocol".data,
    description := "Application layer protocol description.".data,
    tactics := ["command-and-control".data], platforms := ["Windows".data],
    data_sources := [], detection := [], related_techniques := [],
    is_subtechnique := false }

/-- A sub-technique with a separator in its id. -/
def techSub1234001 : Technique :=
  { id := "T1234.001".data, name := "Test Sub-technique".data,
    description := "Test sub-technique description.".data,
    tactics := ["execution".data], platforms := ["Windows".data],
    data_sources := [], detection := [], related_techniques := ["T1234".data],
    is_subtechnique := true }

/-- A Linux autostart-family technique (no Windows platform entry but an
id for which the Windows registry table is non-trivial). -/
def techT1547linux : Technique :=
  { id := "T1547".data, name := "Boot or Logon Autostart Execution".data,
    description := "Autostart description.".data,
    tactics := ["persistence".data], platforms := ["Linux".data],
    data_sources := [], detection := [], related_techniques := [],
    is_subtechnique := false }

/-- `true` iff a conversion returned successfully with non-empty text. -/
def okNonempty : Except PyError Str → Bool
  | .ok (_ :: _) => true
  | _ => false

/-! ## C1 - C5: behaviour of the three converters on the claims' inputs -/

/-- C1: the claim says `convert(None)` raises ValueError identically for
all three builders.  Yara and Sigma do raise
`ValueError("Technique cannot be None")` via the base class's
`create_signature_context`, but `KqlConverter.create_signature_context`
overrides that method without the `None` check, so `convert(None)` on the
KQL builder raises `AttributeError` (reading `technique.id` on `None`)
instead — contradicting the repository's own
`test_converter_error_handling`, which expects `ValueError` from all
three. -/
theorem convert_none_error_kinds :
    YaraConverter.convert none = .error (.valueError "Technique cannot be None") ∧
    SigmaConverter.convert none = .error (.valueError "Technique cannot be None") ∧
    KqlConverter.convert none = .error (.attributeError "id") :=
  ⟨rfl, rfl, rfl⟩

/-- C2: the claim says a technique with empty platforms, empty data
sources and empty detection yields non-empty output from all three
builders without raising.  The Yara builder does (via the
`filesize < 5MB` placeholder and the spec-modelled renderer), but the
Sigma builder raises `AttributeError` (reading the nonexistent attribute
`common_processes` in `_generate_detection`) and the KQL builder raises
`AttributeError` (reading the nonexistent `parent_technique_id` in its
`create_signature_context` override). -/
theorem empty_indicator_technique_convert_results :
    okNonempty (YaraConverter.convert (some techT9999)) = true ∧
    SigmaConverter.convert (some techT9999) = .error (.attributeError "common_processes") ∧
    KqlConverter.convert (some techT9999) = .error (.attributeError "parent_technique_id") :=
  ⟨by decide, rfl, rfl⟩

/-- C3: the claim says a Windows technique with id prefix `T1055`
produces a process-indicator selection and a `high` severity in format B.
`_determine_level` does return `"high"`, and `get_common_processes` is
non-empty for this technique, but `_generate_detection` raises
`AttributeError` on its first test (`technique.common_processes`, an
attribute the dataclass does not define) before any selection can be
built. -/
theorem t1055_sigma_detection_results :
    SigmaConverter.generate_detection techT1055win = .error (.attributeError "common_processes") ∧
    SigmaConverter.determine_level techT1055win = "high".data ∧
    techT1055win.get_common_processes.isEmpty = false :=
  ⟨rfl, by decide, by decide⟩

/-- C4: the claim says `parent_id` is absent for non-sub-techniques and
equals the id's prefix before the first separator for sub-techniques.
The spec-modelled property `specParentId` satisfies exactly that, but
`models/technique.py` defines no such property at all: the code that
needs it (`KqlConverter.create_signature_context`) raises
`AttributeError("parent_technique_id")` on every technique. -/
theorem parent_technique_attribute_results :
    KqlConverter.create_signature_context (some techSub1234001) =
      .error (.attributeError "parent_technique_id") ∧
    specParentId techSub1234001 = some "T1234".data ∧
    specParentId techT9999 = none :=
  ⟨rfl, by decide, by decide⟩

/-- C5: the claim says a derived network phrase containing "DNS"
produces the DNS-marker fragment in formats A and C and never the
HTTP-marker fragment.  In format A this holds: the phrase
"DNS queries with high entropy or encoded data" (index 1 of T1071's
indicators) yields the `dns_1` regex entry and no `http_1` entry (the
`http_2` entry comes from a different phrase).  In format C the
`DnsEvents` clause is appended to the local list, but
`_generate_query_parts` then raises `AttributeError` at
`technique.get_common_commands()` (line 169), so no clause is ever
returned. -/
theorem dns_phrase_routing_results :
    (⟨"dns_1".data, "regex".data, "(dns|domain|nslookup)".data⟩ : YaraString) ∈
      YaraConverter.generate_strings techT1071win ∧
    (YaraConverter.generate_strings techT1071win).all (fun s => s.id != "http_1".data) = true ∧
    (⟨"DnsEvents".data, "isnotempty(QueryName)".data⟩ : QueryPart) ∈
      KqlConverter.query_parts_before_commands techT1071win ∧
    KqlConverter.generate_query_parts techT1071win = .error (.attributeError "get_common_commands") :=
  ⟨by decide, by decide, by decide, rfl⟩

/-! ## C9, C10: properties of the `Technique` model -/

/-- C9: `is_applicable_to_platform` returns true for every query when
`platforms` is empty; for a non-empty `platforms` list it returns true
exactly when the lowercased query equals some lowercased platform or some
lowercased platform is a substring of the lowercased query. -/
theorem platform_applicability_characterization (t : Technique) (platform : Str) :
    (t.platforms = [] → t.is_applicable_to_platform platform = true) ∧
    (t.platforms ≠ [] →
      (t.is_applicable_to_platform platform = true ↔
        ∃ p ∈ t.platforms,
          pyLower platform = pyLower p ∨ strIn (pyLower p) (pyLower platform) = true)) := by
  constructor
  · intro h
    simp [Technique.is_applicable_to_platform, h]
  · intro h
    have hne : t.platforms.isEmpty = false := by
      simpa [List.isEmpty_iff] using h
    simp only [Technique.is_applicable_to_platform, hne, Bool.false_eq_true, if_false]
    by_cases hc : ((t.platforms.map pyLower).contains (pyLower platform)) = true
    · rw [if_pos hc]
      simp only [true_iff]
      obtain ⟨p, hp, hpe⟩ := List.mem_map.mp (List.elem_iff.mp hc)
      exact ⟨p, hp, Or.inl hpe.symm⟩
    · rw [if_neg hc]
      rw [List.any_eq_true]
      constructor
      · rintro ⟨q, hq, hqIn⟩
        obtain ⟨p, hp, rfl⟩ := List.mem_map.mp hq
        exact ⟨p, hp, Or.inr hqIn⟩
      · rintro ⟨p, hp, heq | hin⟩
        · refine absurd (List.elem_iff.mpr ?_) hc
          rw [heq]
          exact List.mem_map_of_mem pyLower hp
        · exact ⟨pyLower p, List.mem_map_of_mem pyLower hp, hin⟩

/-- Witness for C9 at a concrete technique and query platform. -/
theorem platform_applicability_characterization_witness :
    techT1071win.platforms ≠ [] ∧
    (techT1071win.is_applicable_to_platform "windows server".data = true ↔
      ∃ p ∈ techT1071win.platforms,
        pyLower "windows server".data = pyLower p ∨
        strIn (pyLower p) (pyLower "windows server".data) = true) :=
  ⟨by decide,
   (platform_applicability_characterization techT1071win "windows server".data).2 (by decide)⟩

/-- C10: a technique with no platform entry equal to "windows"
case-insensitively derives no registry-key indicators, regardless of id. -/
theorem registry_keys_require_windows (t : Technique)
    (h : ∀ p ∈ t.platforms, pyLower p ≠ "windows".data) :
    t.get_common_registry_keys = [] := by
  have hany : (t.platforms.any fun p => pyLower p = "windows".data) = false := by
    rw [List.any_eq_false]
    intro p hp
    simpa using h p hp
  simp [Technique.get_common_registry_keys, hany]

/-- Witness for C10: a Linux autostart-family technique (an id for which
the Windows registry table would be non-empty). -/
theorem registry_keys_require_windows_witness :
    (∀ p ∈ techT1547linux.platforms, pyLower p ≠ "windows".data) ∧
    techT1547linux.get_common_registry_keys = [] :=
  ⟨by decide, registry_keys_require_windows techT1547linux (by decide)⟩

/-! ## C6: grouping of format-A condition fragments -/

/-- The id list of bucket `k` (file/process/registry/network/other) of the
generated YARA strings. -/
def yaraGroup (t : Technique) (k : Nat) : List Str :=
  ((YaraConverter.generate_strings t).filter
    (fun s => YaraConverter.bucket s.id == k)).map (·.id)

/-- The claim's description of one category's contribution to the
condition list: more than one pattern gives exactly one "any of" fragment
listing the category's pattern ids, exactly one gives a bare id
reference, zero contributes no fragment. -/
def claimFragment (ids : List Str) : Option Str :=
  if 1 < ids.length then
    some ("any of (".data ++
      List.intercalate ", ".data (ids.map (fun s => "$".data ++ s)) ++ ")".data)
  else if ids.length = 1 then some ("$".data ++ ids.headD [])
  else none

/-- The claim's description of the whole condition list: the per-category
fragments in category order, or the single default size-bound fragment if
no category contributed. -/
def claimConditions (groups : List (List Str)) : List Str :=
  let frags := groups.filterMap claimFragment
  if frags = [] then ["filesize < 5MB".data] else frags

lemma conditionBlock_eq_toList (ids : List Str) :
    YaraConverter.conditionBlock ids = (claimFragment ids).toList := by
  match ids with
  | [] => rfl
  | [x] => simp [YaraConverter.conditionBlock, claimFragment]
  | x :: y :: rest =>
    simp only [YaraConverter.conditionBlock, claimFragment, List.length_cons]
    rw [if_pos (by omega)]
    rfl

lemma flatten_conditionBlocks (gs : List (List Str)) :
    (gs.map YaraConverter.conditionBlock).flatten = gs.filterMap claimFragment := by
  induction gs with
  | nil => rfl
  | cons g gs ih =>
    rw [List.map_cons, List.flatten_cons, ih, List.filterMap_cons, conditionBlock_eq_toList]
    cases claimFragment g <;> simp

lemma conditions_general (g0 g1 g2 g3 g4 : List Str) :
    (if (YaraConverter.conditionBlock g0 ++ YaraConverter.conditionBlock g1 ++
         YaraConverter.conditionBlock g2 ++ YaraConverter.conditionBlock g3 ++
         YaraConverter.conditionBlock g4).isEmpty
     then ["filesize < 5MB".data]
     else YaraConverter.conditionBlock g0 ++ YaraConverter.conditionBlock g1 ++
          YaraConverter.conditionBlock g2 ++ YaraConverter.conditionBlock g3 ++
          YaraConverter.conditionBlock g4) =
      claimConditions [g0, g1, g2, g3, g4] ∧
    (if (YaraConverter.conditionBlock g0 ++ YaraConverter.conditionBlock g1 ++
         YaraConverter.conditionBlock g2 ++ YaraConverter.conditionBlock g3 ++
         YaraConverter.conditionBlock g4).isEmpty
     then ["filesize < 5MB".data]
     else YaraConverter.conditionBlock g0 ++ YaraConverter.conditionBlock g1 ++
          YaraConverter.conditionBlock g2 ++ YaraConverter.conditionBlock g3 ++
          YaraConverter.conditionBlock g4).isEmpty = false := by
  have hCF : YaraConverter.conditionBlock g0 ++ YaraConverter.conditionBlock g1 ++
      YaraConverter.conditionBlock g2 ++ YaraConverter.conditionBlock g3 ++
      YaraConverter.conditionBlock g4 =
      List.filterMap claimFragment [g0, g1, g2, g3, g4] := by
    rw [← flatten_conditionBlocks]
    simp
  constructor
  · unfold claimConditions
    rw [← hCF]
    by_cases hE : YaraConverter.conditionBlock g0 ++ YaraConverter.conditionBlock g1 ++
        YaraConverter.conditionBlock g2 ++ YaraConverter.conditionBlock g3 ++
        YaraConverter.conditionBlock g4 = []
    · rw [hE]
      rfl
    · rw [if_neg (by simpa [List.isEmpty_iff] using hE), if_neg hE]
  · by_cases hE : YaraConverter.conditionBlock g0 ++ YaraConverter.conditionBlock g1 ++
        YaraConverter.conditionBlock g2 ++ YaraConverter.conditionBlock g3 ++
        YaraConverter.conditionBlock g4 = []
    · rw [if_pos (by simpa [List.isEmpty_iff] using hE)]
      rfl
    · rw [if_neg (by simpa [List.isEmpty_iff] using hE)]
      simpa [List.isEmpty_iff] using hE

/-- C6: the format-A condition list groups the generated string ids by
indicator category exactly as the claim describes (one "any of" fragment
for a multi-pattern category, a bare reference for a singleton, nothing
for an empty one, the default size-bound fragment when all five
categories are empty), and is therefore never empty. -/
theorem yara_condition_grouping (t : Technique) :
    YaraConverter.generate_conditions t =
      claimConditions
        [yaraGroup t 0, yaraGroup t 1, yaraGroup t 2, yaraGroup t 3, yaraGroup t 4] ∧
    (YaraConverter.generate_conditions t).isEmpty = false :=
  conditions_general _ _ _ _ _

/-- Witness for C6 at concrete techniques covering both the grouped and
the default-fragment outcome. -/
theorem yara_condition_grouping_witness :
    YaraConverter.generate_conditions techT9999 =
      claimConditions
        [yaraGroup techT9999 0, yaraGroup techT9999 1, yaraGroup techT9999 2,
         yaraGroup techT9999 3, yaraGroup techT9999 4] ∧
    (YaraConverter.generate_conditions techT9999).isEmpty = false :=
  yara_condition_grouping techT9999

/-! ## C7: the keyword-extraction fallback -/

/-- The claim's "first `n` unique surviving tokens in source order": one
pass over the token list, skipping tokens already kept (`seen`) and
stopping after `n` tokens have been kept. -/
def firstUniqueAux : List Str → Nat → List Str → List Str
  | _, _, [] => []
  | seen, n, w :: ws =>
    if seen.contains w then firstUniqueAux seen n ws
    else
      match n with
      | 0 => []
      | Nat.succ m => w :: firstUniqueAux (w :: seen) m ws

lemma take_pyDedupAux (xs : List Str) :
    ∀ (seen : List Str) (n : Nat), (pyDedupAux seen xs).take n = firstUniqueAux seen n xs := by
  induction xs with
  | nil => intro seen n; simp [pyDedupAux, firstUniqueAux]
  | cons x xs ih =>
    intro seen n
    rw [show pyDedupAux seen (x :: xs) =
          (if seen.contains x = true then pyDedupAux seen xs
           else x :: pyDedupAux (x :: seen) xs) from rfl]
    rw [show firstUniqueAux seen n (x :: xs) =
          (if seen.contains x = true then firstUniqueAux seen n xs
           else match n with
                | 0 => []
                | Nat.succ m => x :: firstUniqueAux (x :: seen) m xs) from rfl]
    by_cases hc : seen.contains x = true
    · rw [if_pos hc, if_pos hc]
      exact ih seen n
    · rw [if_neg hc, if_neg hc]
      cases n with
      | zero => rfl
      | succ m =>
        show x :: (pyDedupAux (x :: seen) xs).take m =
          x :: firstUniqueAux (x :: seen) m xs
        rw [ih (x :: seen) m]

lemma isWordChar_lowerChar (c : Char) : isWordChar (lowerChar c) = isWordChar c := by
  unfold lowerChar
  by_cases hA : c = 'A'
  · rw [if_pos hA, hA]; decide
  rw [if_neg hA]
  by_cases hB : c = 'B'
  · rw [if_pos hB, hB]; decide
  rw [if_neg hB]
  by_cases hC : c = 'C'
  · rw [if_pos hC, hC]; decide
  rw [if_neg hC]
  by_cases hD : c = 'D'
  · rw [if_pos hD, hD]; decide
  rw [if_neg hD]
  by_cases hE : c = 'E'
  · rw [if_pos hE, hE]; decide
  rw [if_neg hE]
  by_cases hF : c = 'F'
  · rw [if_pos hF, hF]; decide
  rw [if_neg hF]
  by_cases hG : c = 'G'
  · rw [if_pos hG, hG]; decide
  rw [if_neg hG]
  by_cases hH : c = 'H'
  · rw [if_pos hH, hH]; decide
  rw [if_neg hH]
  by_cases hI : c = 'I'
  · rw [if_pos hI, hI]; decide
  rw [if_neg hI]
  by_cases hJ : c = 'J'
  · rw [if_pos hJ, hJ]; decide
  rw [if_neg hJ]
  by_cases hK : c = 'K'
  · rw [if_pos hK, hK]; decide
  rw [if_neg hK]
  by_cases hL : c = 'L'
  · rw [if_pos hL, hL]; decide
  rw [if_neg hL]
  by_cases hM : c = 'M'
  · rw [if_pos hM, hM]; decide
  rw [if_neg hM]
  by_cases hN : c = 'N'
  · rw [if_pos hN, hN]; decide
  rw [if_neg hN]
  by_cases hO : c = 'O'
  · rw [if_pos hO, hO]; decide
  rw [if_neg hO]
  by_cases hP : c = 'P'
  · rw [if_pos hP, hP]; decide
  rw [if_neg hP]
  by_cases hQ : c = 'Q'
  · rw [if_pos hQ, hQ]; decide
  rw [if_neg hQ]
  by_cases hR : c = 'R'
  · rw [if_pos hR, hR]; decide
  rw [if_neg hR]
  by_cases hS : c = 'S'
  · rw [if_pos hS, hS]; decide
  rw [if_neg hS]
  by_cases hT : c = 'T'
  · rw [if_pos hT, hT]; decide
  rw [if_neg hT]
  by_cases hU : c = 'U'
  · rw [if_pos hU, hU]; decide
  rw [if_neg hU]
  by_cases hV : c = 'V'
  · rw [if_pos hV, hV]; decide
  rw [if_neg hV]
  by_cases hW : c = 'W'
  · rw [if_pos hW, hW]; decide
  rw [if_neg hW]
  by_cases hX : c = 'X'
  · rw [if_pos hX, hX]; decide
  rw [if_neg hX]
  by_cases hY : c = 'Y'
  · rw [if_pos hY, hY]; decide
  rw [if_neg hY]
  by_cases hZ : c = 'Z'
  · rw [if_pos hZ, hZ]; decide
  rw [if_neg hZ]

lemma tokensAux_lower (s : Str) :
    ∀ acc : Str, tokensAux (s.map lowerChar) (acc.map lowerChar) =
      (tokensAux s acc).map (List.map lowerChar) := by
  induction s with
  | nil =>
    intro acc
    cases acc with
    | nil => rfl
    | cons a as =>
      simp only [List.map_nil, List.map_cons, tokensAux, List.isEmpty_cons,
        Bool.false_eq_true, if_false, List.map_reverse]
  | cons c rest ih =>
    intro acc
    simp only [List.map_cons, tokensAux, isWordChar_lowerChar]
    by_cases hw : isWordChar c = true
    · rw [if_pos hw, if_pos hw]
      exact ih (c :: acc)
    · rw [if_neg hw, if_neg hw]
      cases acc with
      | nil => simpa using ih []
      | cons a as =>
        simp only [List.isEmpty_cons, List.map_cons]
        rw [if_neg (by simp), if_neg (by simp)]
        have h0 := ih []
        simp only [List.map_nil] at h0
        rw [h0]
        simp [List.map_reverse]

lemma tokens_lower (s : Str) : tokens (pyLower s) = (tokens s).map pyLower := by
  have h := tokensAux_lower s []
  simpa [tokens, pyLower] using h

/-- C7: the keyword-extraction fallback equals the claim's description:
tokenize on word boundaries, lowercase every token, drop tokens of length
three or less and tokens in the fixed stop-word set, and return the first
10 unique surviving tokens in source order. -/
theorem keyword_extraction_spec (description : Str) :
    KqlConverter.extract_keywords_from_description description =
      firstUniqueAux [] 10
        (((tokens description).map pyLower).filter
          (fun word => decide (3 < word.length) &&
            !(["the".data, "and".data, "a".data, "to".data, "of".data, "in".data,
               "for".data, "is".data, "on".data, "that".data, "by".data].contains word))) := by
  simp only [KqlConverter.extract_keywords_from_description, pyDedup]
  rw [take_pyDedupAux, tokens_lower]
  congr 1
  apply List.filter_congr
  intro w _
  exact Bool.and_comm _ _

/-- Witness for C7 at the spec's example description. -/
theorem keyword_extraction_spec_witness :
    KqlConverter.extract_keywords_from_description techT9999.description =
      firstUniqueAux [] 10
        (((tokens techT9999.description).map pyLower).filter
          (fun word => decide (3 < word.length) &&
            !(["the".data, "and".data, "a".data, "to".data, "of".data, "in".data,
               "for".data, "is".data, "on".data, "that".data, "by".data].contains word))) :=
  keyword_extraction_spec techT9999.description

/-! ## C8: the format-C target-table list -/

lemma isPrefixOf_excl : ∀ (p q s : Str), p ≠ q → p.length = q.length →
    p.isPrefixOf s = true → q.isPrefixOf s = false := by
  intro p
  induction p with
  | nil =>
    intro q s hne hlen _
    cases q with
    | nil => exact absurd rfl hne
    | cons b bs => simp at hlen
  | cons a as ih =>
    intro q s hne hlen hp
    cases q with
    | nil => simp at hlen
    | cons b bs =>
      cases s with
      | nil => simp [List.isPrefixOf] at hp
      | cons c cs =>
        simp only [List.isPrefixOf, Bool.and_eq_true, beq_iff_eq] at hp
        obtain ⟨hac, hps⟩ := hp
        cases hbeq : b == c with
        | false => simp [List.isPrefixOf, hbeq]
        | true =>
          have hbc : b = c := by simpa using hbeq
          have hab : a = b := hac.trans hbc.symm
          have hasbs : as ≠ bs := fun h => hne (by rw [hab, h])
          have hlen' : as.length = bs.length := by simpa using hlen
          have hq := ih bs cs hasbs hlen' hps
          simp [List.isPrefixOf, hbeq, hq]

/-- C8: the target-table list is the first-seen-order deduplication of the
platform-and-prefix-keyed static tables followed by the two
environment-agnostic tables, and the two agnostic tables
(`SecurityAlert`, `SecurityIncident`) always close the list. -/
theorem kql_tables_union_dedup_agnostic_last (t : Technique) :
    KqlConverter.determine_tables t =
      pyDedup (KqlConverter.platformTables t ++ KqlConverter.agnosticTables) ∧
    KqlConverter.agnosticTables.isSuffixOf (KqlConverter.determine_tables t) = true := by
  refine ⟨rfl, ?_⟩
  unfold KqlConverter.determine_tables KqlConverter.platformTables KqlConverter.agnosticTables
  by_cases h55 : ("T1055".data.isPrefixOf t.id) = true
  · have h59 := isPrefixOf_excl "T1055".data "T1059".data t.id (by decide) (by decide) h55
    have h47 := isPrefixOf_excl "T1055".data "T1547".data t.id (by decide) (by decide) h55
    have h78 := isPrefixOf_excl "T1055".data "T1078".data t.id (by decide) (by decide) h55
    have h71 := isPrefixOf_excl "T1055".data "T1071".data t.id (by decide) (by decide) h55
    cases hW : t.platforms.any (fun p => pyLower p = "windows".data) <;>
    cases hL : t.platforms.any (fun p => pyLower p = "linux".data) <;>
    cases hM : t.platforms.any (fun p => pyLower p = "macos".data) <;>
      simp only [KqlConverter.windowsTables, KqlConverter.linuxTables, KqlConverter.macosTables,
        h55, h59, h47, h78, h71, hW, hL, hM, Bool.false_eq_true, if_false, if_true] <;> decide
  · have h55' : ("T1055".data.isPrefixOf t.id) = false := Bool.eq_false_iff.mpr h55
    by_cases h59 : ("T1059".data.isPrefixOf t.id) = true
    · have h47 := isPrefixOf_excl "T1059".data "T1547".data t.id (by decide) (by decide) h59
      have h78 := isPrefixOf_excl "T1059".data "T1078".data t.id (by decide) (by decide) h59
      have h71 := isPrefixOf_excl "T1059".data "T1071".data t.id (by decide) (by decide) h59
      cases hW : t.platforms.any (fun p => pyLower p = "windows".data) <;>
      cases hL : t.platforms.any (fun p => pyLower p = "linux".data) <;>
      cases hM : t.platforms.any (fun p => pyLower p = "macos".data) <;>
        simp only [KqlConverter.windowsTables, KqlConverter.linuxTables, KqlConverter.macosTables,
          h55', h59, h47, h78, h71, hW, hL, hM, Bool.false_eq_true, if_false, if_true] <;> decide
    · have h59' : ("T1059".data.isPrefixOf t.id) = false := Bool.eq_false_iff.mpr h59
      by_cases h47 : ("T1547".data.isPrefixOf t.id) = true
      · have h78 := isPrefixOf_excl "T1547".data "T1078".data t.id (by decide) (by decide) h47
        have h71 := isPrefixOf_excl "T1547".data "T1071".data t.id (by decide) (by decide) h47
        cases hW : t.platforms.any (fun p => pyLower p = "windows".data) <;>
        cases hL : t.platforms.any (fun p => pyLower p = "linux".data) <;>
        cases hM : t.platforms.any (fun p => pyLower p = "macos".data) <;>
          simp only [KqlConverter.windowsTables, KqlConverter.linuxTables,
            KqlConverter.macosTables, h55', h59', h47, h78, h71, hW, hL, hM,
            Bool.false_eq_true, if_false, if_true] <;> decide
      · have h47' : ("T1547".data.isPrefixOf t.id) = false := Bool.eq_false_iff.mpr h47
        by_cases h78 : ("T1078".data.isPrefixOf t.id) = true
        · have h71 := isPrefixOf_excl "T1078".data "T1071".data t.id (by decide) (by decide) h78
          cases hW : t.platforms.any (fun p => pyLower p = "windows".data) <;>
          cases hL : t.platforms.any (fun p => pyLower p = "linux".data) <;>
          cases hM : t.platforms.any (fun p => pyLower p = "macos".data) <;>
            simp only [KqlConverter.windowsTables, KqlConverter.linuxTables,
              KqlConverter.macosTables, h55', h59', h47', h78, h71, hW, hL, hM,
              Bool.false_eq_true, if_false, if_true] <;> decide
        · have h78' : ("T1078".data.isPrefixOf t.id) = false := Bool.eq_false_iff.mpr h78
          by_cases h71 : ("T1071".data.isPrefixOf t.id) = true
          · cases hW : t.platforms.any (fun p => pyLower p = "windows".data) <;>
            cases hL : t.platforms.any (fun p => pyLower p = "linux".data) <;>
            cases hM : t.platforms.any (fun p => pyLower p = "macos".data) <;>
              simp only [KqlConverter.windowsTables, KqlConverter.linuxTables,
                KqlConverter.macosTables, h55', h59', h47', h78', h71, hW, hL, hM,
                Bool.false_eq_true, if_false, if_true] <;> decide
          · have h71' : ("T1071".data.isPrefixOf t.id) = false := Bool.eq_false_iff.mpr h71
            cases hW : t.platforms.any (fun p => pyLower p = "windows".data) <;>
            cases hL : t.platforms.any (fun p => pyLower p = "linux".data) <;>
            cases hM : t.platforms.any (fun p => pyLower p = "macos".data) <;>
              simp only [KqlConverter.windowsTables, KqlConverter.linuxTables,
                KqlConverter.macosTables, h55', h59', h47', h78', h71', hW, hL, hM,
                Bool.false_eq_true, if_false, if_true] <;> decide

/-- Witness for C8 at a concrete technique (Windows process-injection:
`SecurityAlert` already occurs in the platform tables and is kept at its
first occurrence, still adjacent to the end). -/
theorem kql_tables_union_dedup_agnostic_last_witness :
    KqlConverter.determine_tables techT1055win =
      pyDedup (KqlConverter.platformTables techT1055win ++ KqlConverter.agnosticTables) ∧
    KqlConverter.agnosticTables.isSuffixOf (KqlConverter.determine_tables techT1055win) = true :=
  kql_tables_union_dedup_agnostic_last techT1055win
